import Mathlib

/-!
Verification of the recording-session layer `src/multimedia.c` of the atari800
emulator (functions `Multimedia_IsFileOpen`, `Multimedia_CloseFile`,
`Multimedia_OpenSoundFile`, `Multimedia_WriteAudio`, `Multimedia_OpenVideoFile`,
`Multimedia_WriteVideo`, built with both `SOUND` and `AVI_VIDEO_RECORDING`
defined).

The module state is two nullable `FILE *` globals, `sndoutput` and `avioutput`;
we model each as a `Bool` that is `true` exactly when the pointer is non-null.
The external encoder primitives (`WAV_OpenFile`, `WAV_WriteSamples`,
`WAV_CloseFile`, `AVI_OpenFile`, `AVI_AddAudioSamples`, `AVI_AddVideoFrame`,
`AVI_CloseFile`) live in `file_export.c`, which is not part of the sources
under verification; each operation therefore takes the results those calls
would return as explicit oracle parameters, and additionally records the
sequence of encoder calls it performs, so that call-ordering and
no-encoder-call properties can be stated.
-/

/-- The encoder primitives of `file_export.h` that `multimedia.c` can invoke. -/
inductive EncCall where
  | wavOpen
  | wavWrite
  | wavClose
  | aviOpen
  | aviAddAudio
  | aviAddVideo
  | aviClose
deriving DecidableEq

/-- The mutable state of `multimedia.c`: `sndoutput` and `avioutput` model the
two static `FILE *` globals (`true` = non-null).  Both start out null. -/
structure MMState where
  sndoutput : Bool
  avioutput : Bool
  /-- Modelled from the spec: the `last_audio_write_done` interleave-tracking
  flag is not present in `src/multimedia.c` — it belongs to the encoder
  implementation (`file_export.c`), which is missing from the sources.  Per the
  spec it is reset to `false` by a successful `OpenVideoFile` and set to `true`
  by every `WriteAudio` call routed to the video handle. -/
  last_audio_write_done : Bool
deriving DecidableEq

/-- The initial state: C static initialization leaves both file pointers NULL. -/
def initState : MMState := ⟨false, false, false⟩

/-- Result of one operation: the C return value, the state after the call, and
the list of encoder calls performed, in order. -/
structure MMResult (α : Type) where
  ret : α
  st : MMState
  calls : List EncCall
deriving DecidableEq

/-- `Multimedia_IsFileOpen` (multimedia.c:53-63):
`return FALSE || sndoutput != NULL || avioutput != NULL;`. -/
def Multimedia_IsFileOpen (s : MMState) : Bool :=
  false || s.sndoutput || s.avioutput

/-- `Multimedia_CloseFile` (multimedia.c:74-92).  `bSuccess` starts `TRUE`; if
`sndoutput` is non-null it becomes the result of `WAV_CloseFile` and
`sndoutput` is nulled; then, if `avioutput` is non-null, it becomes the result
of `AVI_CloseFile` (overwriting any earlier value) and `avioutput` is nulled.
The two sequential `if`s are flattened into a four-way case split; the second
condition reads `avioutput`, which the first branch does not modify.
`wavCloseRes` and `aviCloseRes` are the oracle results of the two encoder
close calls. -/
def Multimedia_CloseFile (wavCloseRes aviCloseRes : Bool) (s : MMState) :
    MMResult Bool :=
  if s.sndoutput then
    if s.avioutput then
      ⟨aviCloseRes, { s with sndoutput := false, avioutput := false },
        [EncCall.wavClose, EncCall.aviClose]⟩
    else
      ⟨wavCloseRes, { s with sndoutput := false }, [EncCall.wavClose]⟩
  else if s.avioutput then
    ⟨aviCloseRes, { s with avioutput := false }, [EncCall.aviClose]⟩
  else
    ⟨true, s, []⟩

/-- `Multimedia_OpenSoundFile` (multimedia.c:101-108): calls
`Multimedia_CloseFile()`, then `sndoutput = WAV_OpenFile(szFileName)` and
returns `sndoutput != NULL`.  `openOk` is the oracle for whether
`WAV_OpenFile` returned a non-null handle. -/
def Multimedia_OpenSoundFile (wavCloseRes aviCloseRes openOk : Bool)
    (s : MMState) : MMResult Bool :=
  let c := Multimedia_CloseFile wavCloseRes aviCloseRes s
  ⟨openOk, { c.st with sndoutput := openOk }, c.calls ++ [EncCall.wavOpen]⟩

/-- `Multimedia_OpenVideoFile` (multimedia.c:152-159): calls
`Multimedia_CloseFile()`, then `avioutput = AVI_OpenFile(szFileName)` and
returns `avioutput != NULL`.  The update of `last_audio_write_done` is
modelled from the spec: a successful open resets it to `false`. -/
def Multimedia_OpenVideoFile (wavCloseRes aviCloseRes openOk : Bool)
    (s : MMState) : MMResult Bool :=
  let c := Multimedia_CloseFile wavCloseRes aviCloseRes s
  ⟨openOk,
    { c.st with
      avioutput := openOk,
      last_audio_write_done :=
        if openOk then false else c.st.last_audio_write_done },
    c.calls ++ [EncCall.aviOpen]⟩

/-- `Multimedia_WriteAudio` (multimedia.c:119-141).  `bufNonNull` models
`ucBuffer != NULL`; the body runs only `if (ucBuffer && uiSize)`.  If
`sndoutput` is open the buffer goes to `WAV_WriteSamples` (oracle `encRes`); a
zero result forces `Multimedia_CloseFile()`.  Otherwise, if `avioutput` is
open, the buffer goes to `AVI_AddAudioSamples`, with the same failure
handling; following the spec, this routed-to-video path sets
`last_audio_write_done`.  With nothing open the call is a no-op returning 0. -/
def Multimedia_WriteAudio (bufNonNull : Bool) (uiSize : Nat) (encRes : Nat)
    (wavCloseRes aviCloseRes : Bool) (s : MMState) : MMResult Nat :=
  if bufNonNull && uiSize != 0 then
    if s.sndoutput then
      if encRes = 0 then
        let c := Multimedia_CloseFile wavCloseRes aviCloseRes s
        ⟨0, c.st, EncCall.wavWrite :: c.calls⟩
      else
        ⟨encRes, s, [EncCall.wavWrite]⟩
    else if s.avioutput then
      let s1 := { s with last_audio_write_done := true }
      if encRes = 0 then
        let c := Multimedia_CloseFile wavCloseRes aviCloseRes s1
        ⟨0, c.st, EncCall.aviAddAudio :: c.calls⟩
      else
        ⟨encRes, s1, [EncCall.aviAddAudio]⟩
    else
      ⟨0, s, []⟩
  else
    ⟨0, s, []⟩

/-- `Multimedia_WriteVideo` (multimedia.c:167-179): if `avioutput` is open,
`result = AVI_AddVideoFrame(avioutput)` (oracle `encRes`) and a zero result
forces `Multimedia_CloseFile()`; otherwise nothing happens and 0 is
returned. -/
def Multimedia_WriteVideo (encRes : Nat) (wavCloseRes aviCloseRes : Bool)
    (s : MMState) : MMResult Nat :=
  if s.avioutput then
    if encRes = 0 then
      let c := Multimedia_CloseFile wavCloseRes aviCloseRes s
      ⟨0, c.st, EncCall.aviAddVideo :: c.calls⟩
    else
      ⟨encRes, s, [EncCall.aviAddVideo]⟩
  else
    ⟨0, s, []⟩

/-- One call into the module, together with the oracle results the external
encoders would return during that call. -/
inductive Op where
  | openSound (wavCloseRes aviCloseRes openOk : Bool)
  | openVideo (wavCloseRes aviCloseRes openOk : Bool)
  | closeFile (wavCloseRes aviCloseRes : Bool)
  | writeAudio (bufNonNull : Bool) (uiSize encRes : Nat)
      (wavCloseRes aviCloseRes : Bool)
  | writeVideo (encRes : Nat) (wavCloseRes aviCloseRes : Bool)
deriving DecidableEq

/-- The state transition of one call. -/
def step (s : MMState) : Op → MMState
  | .openSound cw ca ok => (Multimedia_OpenSoundFile cw ca ok s).st
  | .openVideo cw ca ok => (Multimedia_OpenVideoFile cw ca ok s).st
  | .closeFile cw ca => (Multimedia_CloseFile cw ca s).st
  | .writeAudio b n r cw ca => (Multimedia_WriteAudio b n r cw ca s).st
  | .writeVideo r cw ca => (Multimedia_WriteVideo r cw ca s).st

/-- The state after a sequence of calls. -/
def run (s : MMState) (ops : List Op) : MMState :=
  List.foldl step s ops

/-- The target an open call addresses. -/
inductive Target where
  | audio
  | video
deriving DecidableEq

/-- Which kind of file an operation opens, if any. -/
def openKindOf : Op → Option Target
  | .openSound _ _ _ => some Target.audio
  | .openVideo _ _ _ => some Target.video
  | _ => none

/-- Whether an open operation succeeded (false for non-open operations). -/
def openSucceeded : Op → Bool
  | .openSound _ _ ok => ok
  | .openVideo _ _ ok => ok
  | _ => false

/-- Whether the operation is a `Multimedia_CloseFile` call. -/
def isCloseOp : Op → Bool
  | .closeFile _ _ => true
  | _ => false

/-- Whether, while a session of kind `k` is open, this operation's encoder
write call is made and returns zero (a write failure).  A `writeAudio` with a
real buffer reaches an encoder in both session kinds; a `writeVideo` reaches
one only when the video handle is open. -/
def encWriteFails (k : Target) : Op → Bool
  | .writeAudio b n r _ _ => b && n != 0 && r == 0
  | .writeVideo r _ _ => k == Target.video && r == 0
  | _ => false

/-- The specification's notion of "a file of kind `k` is open after `ops`":
some open call of kind `k` succeeded, and since then no further open, no
close, and no failing encoder write has occurred. -/
def SpecOpen (k : Target) (ops : List Op) : Prop :=
  ∃ l₁ o l₂, ops = l₁ ++ o :: l₂ ∧ openKindOf o = some k ∧
    openSucceeded o = true ∧
    ∀ x ∈ l₂, openKindOf x = none ∧ isCloseOp x = false ∧
      encWriteFails k x = false

theorem closeFile_st (cw ca : Bool) (s : MMState) :
    (Multimedia_CloseFile cw ca s).st = ⟨false, false, s.last_audio_write_done⟩ := by
  cases s with
  | mk sd av f => cases sd <;> cases av <;> simp [Multimedia_CloseFile]

theorem closeFile_calls (cw ca : Bool) (s : MMState) :
    (Multimedia_CloseFile cw ca s).calls =
      (if s.sndoutput then [EncCall.wavClose] else []) ++
      (if s.avioutput then [EncCall.aviClose] else []) := by
  cases s with
  | mk sd av f => cases sd <;> cases av <;> simp [Multimedia_CloseFile]

theorem closeFile_ret (cw ca : Bool) (s : MMState) :
    (Multimedia_CloseFile cw ca s).ret =
      if s.avioutput then ca else if s.sndoutput then cw else true := by
  cases s with
  | mk sd av f => cases sd <;> cases av <;> simp [Multimedia_CloseFile]

theorem openSoundFile_st (cw ca ok : Bool) (s : MMState) :
    (Multimedia_OpenSoundFile cw ca ok s).st =
      ⟨ok, false, s.last_audio_write_done⟩ := by
  simp [Multimedia_OpenSoundFile, closeFile_st]

theorem openVideoFile_st (cw ca ok : Bool) (s : MMState) :
    (Multimedia_OpenVideoFile cw ca ok s).st =
      ⟨false, ok, if ok then false else s.last_audio_write_done⟩ := by
  simp [Multimedia_OpenVideoFile, closeFile_st]

theorem writeAudio_st (b : Bool) (n r : Nat) (cw ca : Bool) (s : MMState) :
    (Multimedia_WriteAudio b n r cw ca s).st =
      if b && n != 0 then
        if s.sndoutput then
          if r = 0 then ⟨false, false, s.last_audio_write_done⟩ else s
        else if s.avioutput then
          if r = 0 then ⟨false, false, true⟩
          else ⟨s.sndoutput, s.avioutput, true⟩
        else s
      else s := by
  cases s with
  | mk sd av f =>
    cases hb : (b && n != 0) <;> cases sd <;> cases av <;>
      by_cases hr : r = 0 <;>
        simp [Multimedia_WriteAudio, closeFile_st, hb, hr]

theorem writeVideo_st (r : Nat) (cw ca : Bool) (s : MMState) :
    (Multimedia_WriteVideo r cw ca s).st =
      if s.avioutput then
        if r = 0 then ⟨false, false, s.last_audio_write_done⟩ else s
      else s := by
  cases s with
  | mk sd av f =>
    cases sd <;> cases av <;> by_cases hr : r = 0 <;>
      simp [Multimedia_WriteVideo, closeFile_st, hr]

theorem run_concat (s : MMState) (l : List Op) (op : Op) :
    run s (l ++ [op]) = step (run s l) op := by
  simp [run, List.foldl_append]

theorem concat_eq_append_cons {α : Type} {ops l₁ l₂ : List α} {op o : α}
    (h : ops ++ [op] = l₁ ++ o :: l₂) :
    (l₁ = ops ∧ o = op ∧ l₂ = []) ∨
      ∃ l₃, l₂ = l₃ ++ [op] ∧ ops = l₁ ++ o :: l₃ := by
  rcases List.eq_nil_or_concat l₂ with h2 | ⟨l₃, a, h2⟩
  · subst h2
    have h4 := List.append_inj' h rfl
    refine Or.inl ⟨h4.1.symm, ?_, rfl⟩
    injection h4.2 with h5
    exact h5.symm
  · subst h2
    have h' : ops ++ [op] = (l₁ ++ o :: l₃) ++ [a] := by
      rw [h]; simp
    have h4 := List.append_inj' h' rfl
    injection h4.2 with h5
    exact Or.inr ⟨l₃, by rw [h5, List.concat_eq_append], h4.1⟩

theorem specOpen_nil (k : Target) : ¬ SpecOpen k [] := by
  rintro ⟨l₁, o, l₂, heq, -, -, -⟩
  exact List.cons_ne_nil o l₂ (List.append_eq_nil.mp heq.symm).2

theorem specOpen_concat_open {k j : Target} {l : List Op} {op : Op}
    (h : openKindOf op = some j) :
    SpecOpen k (l ++ [op]) ↔ (j = k ∧ openSucceeded op = true) := by
  constructor
  · rintro ⟨l₁, o, l₂, heq, hk, hok, hall⟩
    rcases concat_eq_append_cons heq with ⟨h1, h2, h3⟩ | ⟨l₃, h1, h2⟩
    · subst h2
      rw [h] at hk
      exact ⟨Option.some.inj hk, hok⟩
    · have hmem : op ∈ l₂ := by rw [h1]; simp
      have hx := (hall op hmem).1
      rw [h] at hx
      simp at hx
  · rintro ⟨rfl, hok⟩
    exact ⟨l, op, [], rfl, h, hok, by simp⟩

theorem specOpen_concat_close {k : Target} {l : List Op} {op : Op}
    (h : isCloseOp op = true) : ¬ SpecOpen k (l ++ [op]) := by
  rintro ⟨l₁, o, l₂, heq, hk, hok, hall⟩
  rcases concat_eq_append_cons heq with ⟨h1, h2, h3⟩ | ⟨l₃, h1, h2⟩
  · rw [h2] at hk
    cases op <;> simp_all [openKindOf, isCloseOp]
  · have hmem : op ∈ l₂ := by rw [h1]; simp
    have hx := (hall op hmem).2.1
    rw [h] at hx
    simp at hx

theorem specOpen_concat_write {k : Target} {l : List Op} {op : Op}
    (hno : openKindOf op = none) (hnc : isCloseOp op = false) :
    SpecOpen k (l ++ [op]) ↔ (SpecOpen k l ∧ encWriteFails k op = false) := by
  constructor
  · rintro ⟨l₁, o, l₂, heq, hk, hok, hall⟩
    rcases concat_eq_append_cons heq with ⟨h1, h2, h3⟩ | ⟨l₃, h1, h2⟩
    · subst h2
      rw [hno] at hk
      simp at hk
    · subst h1
      refine ⟨⟨l₁, o, l₃, h2, hk, hok, ?_⟩, (hall op (by simp)).2.2⟩
      intro x hx
      exact hall x (by simp [hx])
  · rintro ⟨⟨l₁, o, l₂, heq, hk, hok, hall⟩, hf⟩
    refine ⟨l₁, o, l₂ ++ [op], by rw [heq]; simp, hk, hok, ?_⟩
    intro x hx
    rcases List.mem_append.mp hx with hx | hx
    · exact hall x hx
    · have hxo : x = op := by simpa using hx
      subst hxo
      exact ⟨hno, hnc, hf⟩

theorem run_char (ops : List Op) :
    (((run initState ops).sndoutput && (run initState ops).avioutput) = false)
    ∧ ((run initState ops).sndoutput = true ↔ SpecOpen Target.audio ops)
    ∧ ((run initState ops).avioutput = true ↔ SpecOpen Target.video ops) := by
  induction ops using List.reverseRecOn with
  | nil =>
    refine ⟨rfl, ?_, ?_⟩ <;> simp [run, initState, specOpen_nil]
  | append_singleton l op ih =>
    obtain ⟨hInv, hA, hV⟩ := ih
    rw [run_concat]
    cases op with
    | openSound cw ca ok =>
      have ho : openKindOf (Op.openSound cw ca ok) = some Target.audio := rfl
      rw [specOpen_concat_open (k := Target.audio) ho,
          specOpen_concat_open (k := Target.video) ho]
      simp [step, openSoundFile_st, openSucceeded]
    | openVideo cw ca ok =>
      have ho : openKindOf (Op.openVideo cw ca ok) = some Target.video := rfl
      rw [specOpen_concat_open (k := Target.audio) ho,
          specOpen_concat_open (k := Target.video) ho]
      simp [step, openVideoFile_st, openSucceeded]
    | closeFile cw ca =>
      have hc : isCloseOp (Op.closeFile cw ca) = true := rfl
      refine ⟨?_, ?_, ?_⟩
      · simp [step, closeFile_st]
      · simp [step, closeFile_st, specOpen_concat_close (k := Target.audio) hc]
      · simp [step, closeFile_st, specOpen_concat_close (k := Target.video) hc]
    | writeAudio b n r cw ca =>
      have hno : openKindOf (Op.writeAudio b n r cw ca) = none := rfl
      have hnc : isCloseOp (Op.writeAudio b n r cw ca) = false := rfl
      rw [specOpen_concat_write (k := Target.audio) hno hnc,
          specOpen_concat_write (k := Target.video) hno hnc]
      cases b <;> cases n <;>
        cases hsd : (run initState l).sndoutput <;>
        cases hav : (run initState l).avioutput <;>
        by_cases hr : r = 0 <;>
          simp_all [step, writeAudio_st, encWriteFails]
    | writeVideo r cw ca =>
      have hno : openKindOf (Op.writeVideo r cw ca) = none := rfl
      have hnc : isCloseOp (Op.writeVideo r cw ca) = false := rfl
      rw [specOpen_concat_write (k := Target.audio) hno hnc,
          specOpen_concat_write (k := Target.video) hno hnc]
      cases hsd : (run initState l).sndoutput <;>
        cases hav : (run initState l).avioutput <;>
        by_cases hr : r = 0 <;>
          simp_all [step, writeVideo_st, encWriteFails]

/-- Claim C1: starting from the initial state (no file open), after every
sequence of calls to `Multimedia_OpenSoundFile`, `Multimedia_OpenVideoFile`,
`Multimedia_CloseFile`, `Multimedia_WriteAudio` and `Multimedia_WriteVideo`,
at most one of the audio handle (`sndoutput`) and the video handle
(`avioutput`) is non-null. -/
theorem mutual_exclusion_invariant (ops : List Op) :
    ((run initState ops).sndoutput && (run initState ops).avioutput) = false :=
  (run_char ops).1

/-- Claim C2: in every state in which a file is open, a `Multimedia_WriteAudio`
call with non-null buffer and non-zero size whose encoder write returns 0
returns 0 and leaves `Multimedia_IsFileOpen` false, and likewise a
`Multimedia_WriteVideo` call whose encoder returns 0 (the encoder is invoked
exactly when the video handle is open). -/
theorem write_failure_forces_teardown (s : MMState) (b : Bool) (n : Nat)
    (cw ca : Bool) (hb : b = true) (hn : n ≠ 0)
    (ho : Multimedia_IsFileOpen s = true) :
    ((Multimedia_WriteAudio b n 0 cw ca s).ret = 0
      ∧ Multimedia_IsFileOpen (Multimedia_WriteAudio b n 0 cw ca s).st = false)
    ∧ (s.avioutput = true →
        (Multimedia_WriteVideo 0 cw ca s).ret = 0
        ∧ Multimedia_IsFileOpen (Multimedia_WriteVideo 0 cw ca s).st = false) := by
  subst hb
  cases s with
  | mk sd av f =>
    cases sd <;> cases av <;> cases n <;>
      simp_all [Multimedia_WriteAudio, Multimedia_WriteVideo,
        Multimedia_CloseFile, Multimedia_IsFileOpen]

/-- Witness for C2: write failures at the state with only the video handle
open. -/
theorem write_failure_forces_teardown_witness :
    ((Multimedia_WriteAudio true 1 0 true true ⟨false, true, false⟩).ret = 0
      ∧ Multimedia_IsFileOpen
          (Multimedia_WriteAudio true 1 0 true true ⟨false, true, false⟩).st = false)
    ∧ ((⟨false, true, false⟩ : MMState).avioutput = true →
        (Multimedia_WriteVideo 0 true true ⟨false, true, false⟩).ret = 0
        ∧ Multimedia_IsFileOpen
            (Multimedia_WriteVideo 0 true true ⟨false, true, false⟩).st = false) :=
  write_failure_forces_teardown ⟨false, true, false⟩ true 1 true true rfl
    (by decide) (by decide)

/-- Claim C3: `Multimedia_IsFileOpen` is a pure query (in the model it reads
the state and returns a `Bool`, producing no new state and no encoder calls),
and over every sequence of calls it returns true iff the most recent open
succeeded and no close and no failing encoder write has occurred since, which
is the `SpecOpen` predicate. -/
theorem isFileOpen_iff_specOpen (ops : List Op) :
    Multimedia_IsFileOpen (run initState ops) = true ↔ ∃ k, SpecOpen k ops := by
  obtain ⟨-, hA, hV⟩ := run_char ops
  constructor
  · intro h
    simp only [Multimedia_IsFileOpen, Bool.false_or, Bool.or_eq_true] at h
    rcases h with h | h
    · exact ⟨Target.audio, hA.mp h⟩
    · exact ⟨Target.video, hV.mp h⟩
  · rintro ⟨k, hk⟩
    cases k
    · simp [Multimedia_IsFileOpen, hA.mpr hk]
    · simp [Multimedia_IsFileOpen, hV.mpr hk]

/-- Claim C4: both open calls run `Multimedia_CloseFile` first, so any
previously open handle's encoder close precedes the new encoder open in the
call trace; the return value and the new handle equal the encoder-open
outcome, the other handle ends up null, and a failed open leaves no file
open. -/
theorem open_supersede_semantics (s : MMState) (cw ca ok : Bool) :
    (Multimedia_OpenSoundFile cw ca ok s).calls =
        (Multimedia_CloseFile cw ca s).calls ++ [EncCall.wavOpen]
    ∧ (Multimedia_OpenVideoFile cw ca ok s).calls =
        (Multimedia_CloseFile cw ca s).calls ++ [EncCall.aviOpen]
    ∧ (s.sndoutput = true →
        EncCall.wavClose ∈ (Multimedia_CloseFile cw ca s).calls)
    ∧ (s.avioutput = true →
        EncCall.aviClose ∈ (Multimedia_CloseFile cw ca s).calls)
    ∧ (Multimedia_OpenSoundFile cw ca ok s).ret = ok
    ∧ (Multimedia_OpenSoundFile cw ca ok s).st.sndoutput = ok
    ∧ (Multimedia_OpenSoundFile cw ca ok s).st.avioutput = false
    ∧ (Multimedia_OpenVideoFile cw ca ok s).ret = ok
    ∧ (Multimedia_OpenVideoFile cw ca ok s).st.avioutput = ok
    ∧ (Multimedia_OpenVideoFile cw ca ok s).st.sndoutput = false
    ∧ (ok = false →
        Multimedia_IsFileOpen (Multimedia_OpenSoundFile cw ca ok s).st = false
        ∧ Multimedia_IsFileOpen (Multimedia_OpenVideoFile cw ca ok s).st
            = false) := by
  cases s with
  | mk sd av f =>
    cases sd <;> cases av <;> cases ok <;>
      simp [Multimedia_OpenSoundFile, Multimedia_OpenVideoFile,
        Multimedia_CloseFile, Multimedia_IsFileOpen]

/-- Witness for C4: superseding an open audio session with a failing video
open. -/
theorem open_supersede_semantics_witness :
    (Multimedia_OpenSoundFile false true false ⟨true, false, false⟩).calls =
        (Multimedia_CloseFile false true ⟨true, false, false⟩).calls
          ++ [EncCall.wavOpen]
    ∧ (Multimedia_OpenVideoFile false true false ⟨true, false, false⟩).calls =
        (Multimedia_CloseFile false true ⟨true, false, false⟩).calls
          ++ [EncCall.aviOpen]
    ∧ ((⟨true, false, false⟩ : MMState).sndoutput = true →
        EncCall.wavClose ∈
          (Multimedia_CloseFile false true ⟨true, false, false⟩).calls)
    ∧ ((⟨true, false, false⟩ : MMState).avioutput = true →
        EncCall.aviClose ∈
          (Multimedia_CloseFile false true ⟨true, false, false⟩).calls)
    ∧ (Multimedia_OpenSoundFile false true false ⟨true, false, false⟩).ret = false
    ∧ (Multimedia_OpenSoundFile false true false
        ⟨true, false, false⟩).st.sndoutput = false
    ∧ (Multimedia_OpenSoundFile false true false
        ⟨true, false, false⟩).st.avioutput = false
    ∧ (Multimedia_OpenVideoFile false true false ⟨true, false, false⟩).ret = false
    ∧ (Multimedia_OpenVideoFile false true false
        ⟨true, false, false⟩).st.avioutput = false
    ∧ (Multimedia_OpenVideoFile false true false
        ⟨true, false, false⟩).st.sndoutput = false
    ∧ (false = false →
        Multimedia_IsFileOpen
          (Multimedia_OpenSoundFile false true false ⟨true, false, false⟩).st
            = false
        ∧ Multimedia_IsFileOpen
            (Multimedia_OpenVideoFile false true false ⟨true, false, false⟩).st
              = false) :=
  open_supersede_semantics ⟨true, false, false⟩ false true false

/-- Claim C5: after any `Multimedia_CloseFile` call no handle remains open,
whatever the finalize outcomes; and the return value is the success flag of
the finalize call that was made (the AVI close when the video handle was
open, the WAV close when only the sound handle was open). -/
theorem closeFile_always_clears (s : MMState) (cw ca : Bool) :
    Multimedia_IsFileOpen (Multimedia_CloseFile cw ca s).st = false
    ∧ (s.avioutput = true → (Multimedia_CloseFile cw ca s).ret = ca)
    ∧ (s.sndoutput = true → s.avioutput = false →
        (Multimedia_CloseFile cw ca s).ret = cw) := by
  cases s with
  | mk sd av f =>
    cases sd <;> cases av <;>
      simp [Multimedia_CloseFile, Multimedia_IsFileOpen]

/-- Witness for C5: closing an open sound file whose finalize reports
failure still clears the state and propagates the failure flag. -/
theorem closeFile_always_clears_witness :
    Multimedia_IsFileOpen
        (Multimedia_CloseFile false true ⟨true, false, false⟩).st = false
    ∧ ((⟨true, false, false⟩ : MMState).avioutput = true →
        (Multimedia_CloseFile false true ⟨true, false, false⟩).ret = true)
    ∧ ((⟨true, false, false⟩ : MMState).sndoutput = true →
        (⟨true, false, false⟩ : MMState).avioutput = false →
        (Multimedia_CloseFile false true ⟨true, false, false⟩).ret = false) :=
  closeFile_always_clears ⟨true, false, false⟩ false true

/-- Claim C6: `Multimedia_WriteAudio` with a real buffer forwards to the WAV
sample writer when the sound handle is open and to the AVI add-audio-samples
primitive when the video handle is open, and is a silent no-op returning 0
when nothing is open; `Multimedia_WriteVideo` forwards to the AVI
add-video-frame primitive exactly when the video handle is open and otherwise
returns 0 with no encoder call. -/
theorem write_routing (s : MMState) (b : Bool) (n r : Nat) (cw ca : Bool) :
    (b = true → n ≠ 0 → s.sndoutput = true →
        (Multimedia_WriteAudio b n r cw ca s).calls.head?
            = some EncCall.wavWrite
        ∧ (r ≠ 0 → Multimedia_WriteAudio b n r cw ca s
            = ⟨r, s, [EncCall.wavWrite]⟩))
    ∧ (b = true → n ≠ 0 → s.sndoutput = false → s.avioutput = true →
        (Multimedia_WriteAudio b n r cw ca s).calls.head?
            = some EncCall.aviAddAudio
        ∧ (r ≠ 0 → Multimedia_WriteAudio b n r cw ca s
            = ⟨r, ⟨s.sndoutput, s.avioutput, true⟩, [EncCall.aviAddAudio]⟩))
    ∧ (s.sndoutput = false → s.avioutput = false →
        Multimedia_WriteAudio b n r cw ca s = ⟨0, s, []⟩)
    ∧ (s.avioutput = true →
        (Multimedia_WriteVideo r cw ca s).calls.head?
            = some EncCall.aviAddVideo
        ∧ (r ≠ 0 → Multimedia_WriteVideo r cw ca s
            = ⟨r, s, [EncCall.aviAddVideo]⟩))
    ∧ (s.avioutput = false → Multimedia_WriteVideo r cw ca s = ⟨0, s, []⟩) := by
  cases s with
  | mk sd av f =>
    cases b <;> cases n <;> cases sd <;> cases av <;> by_cases hr : r = 0 <;>
      simp_all [Multimedia_WriteAudio, Multimedia_WriteVideo,
        Multimedia_CloseFile]

/-- Witness for C6: routing at the state with only the video handle open. -/
theorem write_routing_witness :
    (true = true → (1 : Nat) ≠ 0 →
        (⟨false, true, false⟩ : MMState).sndoutput = true →
        (Multimedia_WriteAudio true 1 2 true true ⟨false, true, false⟩).calls.head?
            = some EncCall.wavWrite
        ∧ ((2 : Nat) ≠ 0 →
            Multimedia_WriteAudio true 1 2 true true ⟨false, true, false⟩
              = ⟨2, ⟨false, true, false⟩, [EncCall.wavWrite]⟩))
    ∧ (true = true → (1 : Nat) ≠ 0 →
        (⟨false, true, false⟩ : MMState).sndoutput = false →
        (⟨false, true, false⟩ : MMState).avioutput = true →
        (Multimedia_WriteAudio true 1 2 true true ⟨false, true, false⟩).calls.head?
            = some EncCall.aviAddAudio
        ∧ ((2 : Nat) ≠ 0 →
            Multimedia_WriteAudio true 1 2 true true ⟨false, true, false⟩
              = ⟨2, ⟨(⟨false, true, false⟩ : MMState).sndoutput,
                    (⟨false, true, false⟩ : MMState).avioutput, true⟩,
                  [EncCall.aviAddAudio]⟩))
    ∧ ((⟨false, true, false⟩ : MMState).sndoutput = false →
        (⟨false, true, false⟩ : MMState).avioutput = false →
        Multimedia_WriteAudio true 1 2 true true ⟨false, true, false⟩
          = ⟨0, ⟨false, true, false⟩, []⟩)
    ∧ ((⟨false, true, false⟩ : MMState).avioutput = true →
        (Multimedia_WriteVideo 2 true true ⟨false, true, false⟩).calls.head?
            = some EncCall.aviAddVideo
        ∧ ((2 : Nat) ≠ 0 →
            Multimedia_WriteVideo 2 true true ⟨false, true, false⟩
              = ⟨2, ⟨false, true, false⟩, [EncCall.aviAddVideo]⟩))
    ∧ ((⟨false, true, false⟩ : MMState).avioutput = false →
        Multimedia_WriteVideo 2 true true ⟨false, true, false⟩
          = ⟨0, ⟨false, true, false⟩, []⟩) :=
  write_routing ⟨false, true, false⟩ true 1 2 true true

/-- Claim C7: `Multimedia_CloseFile` with nothing open makes no encoder
calls, leaves the state unchanged, and returns success. -/
theorem closeFile_nothing_open_noop (s : MMState) (cw ca : Bool)
    (h1 : s.sndoutput = false) (h2 : s.avioutput = false) :
    Multimedia_CloseFile cw ca s = ⟨true, s, []⟩ := by
  cases s with
  | mk sd av f => simp_all [Multimedia_CloseFile]

/-- Witness for C7 at the initial state. -/
theorem closeFile_nothing_open_noop_witness :
    Multimedia_CloseFile true false ⟨false, false, true⟩
      = ⟨true, ⟨false, false, true⟩, []⟩ :=
  closeFile_nothing_open_noop ⟨false, false, true⟩ true false rfl rfl

/-- Claim C8: `Multimedia_WriteAudio` with a null buffer or zero size returns
0, performs no encoder call, and leaves the state unchanged, in every session
state. -/
theorem writeAudio_degenerate_noop (s : MMState) (b : Bool) (n r : Nat)
    (cw ca : Bool) (h : b = false ∨ n = 0) :
    Multimedia_WriteAudio b n r cw ca s = ⟨0, s, []⟩ := by
  rcases h with h | h <;> subst h <;> simp [Multimedia_WriteAudio]

/-- Witness for C8: a null-buffer write while the sound handle is open. -/
theorem writeAudio_degenerate_noop_witness :
    Multimedia_WriteAudio false 5 7 true true ⟨true, false, false⟩
      = ⟨0, ⟨true, false, false⟩, []⟩ :=
  writeAudio_degenerate_noop ⟨true, false, false⟩ false 5 7 true true
    (Or.inl rfl)

/-- Claim C9 (spec-modelled flag, see `MMState.last_audio_write_done`): a
successful `Multimedia_OpenVideoFile` resets `last_audio_write_done` to
false from every state (Idle, audio open, or video open), and every
`Multimedia_WriteAudio` call that is routed to the video handle (real
buffer, sound handle closed, video handle open) sets
`last_audio_write_done` to true. -/
theorem interleave_flag_tracking (s : MMState) (cw ca : Bool) (b : Bool)
    (n r : Nat) :
    (Multimedia_OpenVideoFile cw ca true s).st.last_audio_write_done = false
    ∧ (b = true → n ≠ 0 → s.sndoutput = false → s.avioutput = true →
        (Multimedia_WriteAudio b n r cw ca s).st.last_audio_write_done
          = true) := by
  constructor
  · simp [openVideoFile_st]
  · intro hb hn hsd hav
    subst hb
    cases s with
    | mk sd av f =>
      cases n <;> by_cases hr : r = 0 <;>
        simp_all [Multimedia_WriteAudio, Multimedia_CloseFile]

/-- Witness for C9: a failing routed audio write still sets the flag, and a
successful video open resets it, at a state where it was set. -/
theorem interleave_flag_tracking_witness :
    (Multimedia_OpenVideoFile true true true
        ⟨false, true, true⟩).st.last_audio_write_done = false
    ∧ (true = true → (1 : Nat) ≠ 0 →
        (⟨false, true, true⟩ : MMState).sndoutput = false →
        (⟨false, true, true⟩ : MMState).avioutput = true →
        (Multimedia_WriteAudio true 1 0 true true
            ⟨false, true, true⟩).st.last_audio_write_done = true) :=
  interleave_flag_tracking ⟨false, true, true⟩ true true true 1 0

/-- Claim C10: the success flag of every internally triggered
`Multimedia_CloseFile` is discarded: the open calls return exactly the
encoder-open outcome whatever the close oracles report, and a failed write
returns 0 whatever the forced close reports. -/
theorem internal_close_result_discarded (s : MMState) (cw ca ok : Bool)
    (b : Bool) (n : Nat) :
    (Multimedia_OpenSoundFile cw ca ok s).ret = ok
    ∧ (Multimedia_OpenVideoFile cw ca ok s).ret = ok
    ∧ (Multimedia_WriteAudio b n 0 cw ca s).ret = 0
    ∧ (Multimedia_WriteVideo 0 cw ca s).ret = 0 := by
  refine ⟨rfl, rfl, ?_, ?_⟩
  · cases s with
    | mk sd av f =>
      cases b <;> cases n <;> cases sd <;> cases av <;>
        simp [Multimedia_WriteAudio, Multimedia_CloseFile]
  · cases s with
    | mk sd av f =>
      cases av <;> simp [Multimedia_WriteVideo, Multimedia_CloseFile]
